import Mathlib

/-!
Verification of `cover_server.py` (HomePod / MQTT album-art server).

The Python source is shallowly embedded: byte strings become `List Nat`
(one `Nat` per byte), the module-level globals `current_cover_jpeg`,
`current_cover_png`, `default_cover_jpeg_bytes`, `default_cover_png_bytes`
become the four fields of `CoverStore` (with `Option` for `None`),
external collaborators (PIL, pyatv metadata fetch, aioesphomeapi, the MQTT
client) are passed in as explicit oracles describing the outcome of each
call, and each handler in the source becomes a pure function from the
oracle outcomes and the pre-state to the post-state together with a trace
of its observable events (sleeps, log lines, external calls).
-/

/-- A byte string: one natural number (0..255) per byte. -/
abbrev Bytes := List Nat

/-- The four module-level cover variables of `cover_server.py`
(`current_cover_jpeg`, `current_cover_png`, `default_cover_jpeg_bytes`,
`default_cover_png_bytes`); `none` models Python `None`. -/
structure CoverStore where
  currentJpeg : Option Bytes
  currentPng : Option Bytes
  defaultJpeg : Option Bytes
  defaultPng : Option Bytes
deriving Repr, DecidableEq

/-- The store at interpreter start: all four globals are `None`. -/
def initStore : CoverStore :=
  { currentJpeg := none, currentPng := none, defaultJpeg := none, defaultPng := none }

/-- The revert-to-default branch, as written twice in the source
(`playstatus_update`, lines 174-177, and `on_message_mqtt`, lines 251-254):

    if current_cover_jpeg != default_cover_jpeg_bytes:
        current_cover_jpeg = default_cover_jpeg_bytes
        current_cover_png = default_cover_png_bytes

Note the guard inspects only the JPEG slot. -/
def revertToDefault (s : CoverStore) : CoverStore :=
  if s.currentJpeg ≠ s.defaultJpeg then
    { s with currentJpeg := s.defaultJpeg, currentPng := s.defaultPng }
  else s

/-- A store state in which the current JPEG already equals the default JPEG
but the current PNG differs from the default PNG. -/
def revertCexStore : CoverStore :=
  { currentJpeg := some [0], currentPng := some [1],
    defaultJpeg := some [0], defaultPng := some [2] }

/-- Claim C3, counterexample: the claim as stated is false. In the state
`revertCexStore` (currentJpeg = defaultJpeg but currentPng ≠ defaultPng),
calling the revert-to-default branch twice leaves `currentPng` different
from `defaultPng` after each call: the JPEG-only guard skips the repair. -/
theorem revertToDefault_not_pair_restoring :
    (revertToDefault revertCexStore).currentPng ≠ revertCexStore.defaultPng ∧
    (revertToDefault (revertToDefault revertCexStore)).currentPng ≠
      revertCexStore.defaultPng := by
  constructor <;> decide

/-- Claim C3, amended: the revert-to-default branch is idempotent as a state
transformer (the second call changes nothing), it always leaves
`currentJpeg = defaultJpeg`, and it leaves the defaults untouched; but it
restores `currentPng` to `defaultPng` only when `currentJpeg` differed from
`defaultJpeg` before the call (the guard inspects only the JPEG slot). -/
theorem revertToDefault_idempotent (s : CoverStore) :
    revertToDefault (revertToDefault s) = revertToDefault s ∧
    (revertToDefault s).currentJpeg = s.defaultJpeg ∧
    (revertToDefault s).defaultJpeg = s.defaultJpeg ∧
    (revertToDefault s).defaultPng = s.defaultPng ∧
    (s.currentJpeg ≠ s.defaultJpeg → (revertToDefault s).currentPng = s.defaultPng) := by
  by_cases h : s.currentJpeg = s.defaultJpeg <;> simp [revertToDefault, h]

/-- Claim C3, witness for the amended theorem at a concrete store whose
current JPEG differs from the default. -/
theorem revertToDefault_idempotent_witness :
    (revertToDefault (revertToDefault initStore) = revertToDefault initStore ∧
      (revertToDefault initStore).currentJpeg = initStore.defaultJpeg ∧
      (revertToDefault initStore).defaultJpeg = initStore.defaultJpeg ∧
      (revertToDefault initStore).defaultPng = initStore.defaultPng ∧
      (initStore.currentJpeg ≠ initStore.defaultJpeg →
        (revertToDefault initStore).currentPng = initStore.defaultPng)) :=
  revertToDefault_idempotent initStore

/-- One atomic step of the writer side. In the source the "paired update" of
the two current-cover globals is two separate assignment statements
(`_fetch_and_process_artwork` lines 143-144, `on_message_mqtt` lines 263-264,
and the revert branches), so each assignment is its own step and other
threads (the HTTP handler runs on a different thread) can observe the store
between the two. -/
inductive WStep where
  | setCurrentJpeg (b : Bytes)
  | setCurrentPng (b : Bytes)
deriving Repr, DecidableEq

/-- Effect of a single assignment on the cover globals. -/
def applyWStep (s : CoverStore) : WStep → CoverStore
  | .setCurrentJpeg b => { s with currentJpeg := some b }
  | .setCurrentPng b => { s with currentPng := some b }

/-- Run a sequence of assignment steps. A reader that is scheduled after a
prefix of the writer's steps observes `runWSteps s (prefix)`. -/
def runWSteps (s : CoverStore) : List WStep → CoverStore
  | [] => s
  | st :: rest => runWSteps (applyWStep s st) rest

/-- The install of one artwork update exactly as the source performs it:
`current_cover_jpeg = ...` followed by `current_cover_png = ...`
(two statements, lines 143-144 / 263-264). -/
def swapCurrentSteps (j p : Bytes) : List WStep :=
  [WStep.setCurrentJpeg j, WStep.setCurrentPng p]

/-- A store where update 0 (the defaults) installed the pair ([0], [0]). -/
def tornInitStore : CoverStore :=
  { currentJpeg := some [0], currentPng := some [0],
    defaultJpeg := some [0], defaultPng := some [0] }

/-- Claim C1, evaluation at the failing schedule: starting from the pair
([0],[0]) of update 0, after only the first of the two assignments of
update 1 (whose pair is ([1],[1])) the store holds JPEG [1] with PNG [0] —
a pair produced by no single update, observable by a reader scheduled
between the two assignments; completing both steps is what yields update
1's pair. -/
theorem swapCurrent_torn_pair_observable :
    runWSteps tornInitStore ((swapCurrentSteps [1] [1]).take 1) =
      { currentJpeg := some [1], currentPng := some [0],
        defaultJpeg := some [0], defaultPng := some [0] } ∧
    ((some [1] : Option Bytes), (some [0] : Option Bytes)) ≠ (some [0], some [0]) ∧
    ((some [1] : Option Bytes), (some [0] : Option Bytes)) ≠ (some [1], some [1]) ∧
    runWSteps tornInitStore (swapCurrentSteps [1] [1]) =
      { currentJpeg := some [1], currentPng := some [1],
        defaultJpeg := some [0], defaultPng := some [0] } := by
  refine ⟨by decide, by decide, by decide, by decide⟩

/-- Outcome of one call of `self.atv.metadata.artwork()` in
`_fetch_and_process_artwork`, as seen by the caller. -/
inductive FetchOutcome where
  | artwork (raw : Bytes)
  | noArtwork
  | blocked
  | raised
deriving Repr, DecidableEq

/-- Observable events of one run of `_fetch_and_process_artwork`.
`sleepCs` (a backoff sleep of that many centiseconds) is in the event
vocabulary because the source contains `await asyncio.sleep(delay)`, but
no run ever reaches it — see `fetchLoop`. -/
inductive FetchEvent where
  | attempt (i : Nat)
  | sleepCs (d : Nat)
  | updatedCover
  | noArtworkLogged
  | esphomeTriggered
deriving Repr, DecidableEq

/-- Result of one run of the `_fetch_and_process_artwork` coroutine: it
either returns normally or is terminated by a `NameError` escaping it.
The module defines only `logger` (line 30); the name `_LOGGER` used at
lines 153, 158 and 160 is never defined, so evaluating any of those
calls raises `NameError`, and an exception raised inside an `except`
clause is not caught by the sibling clauses of the same `try`. Either
way, the events that happened and the final store. -/
inductive FetchRun where
  | normal (events : List FetchEvent) (s : CoverStore)
  | nameErrorEscape (events : List FetchEvent) (s : CoverStore)
deriving Repr, DecidableEq

/-- The events of a run. -/
def FetchRun.events : FetchRun → List FetchEvent
  | .normal evs _ => evs
  | .nameErrorEscape evs _ => evs

/-- The store a run ends with. -/
def FetchRun.store : FetchRun → CoverStore
  | .normal _ s => s
  | .nameErrorEscape _ s => s

/-- The body of `for attempt in range(5)` in `_fetch_and_process_artwork`
(lines 137-160). `fetch i` is the outcome of the artwork call on attempt
`i`; `norm raw` models `Image.open` + `process_image` + the two encoders
as one unit (`none` = an exception in that block). Per branch:
artwork present and pipeline ok — assign both buffers, `logger.info`,
await the ESPHome trigger, return; artwork absent — `logger.info`,
return; `BlockedStateError` — the handler computes
`delay = 0.05 * (2**attempt)` and then calls `_LOGGER.warning`, which
raises `NameError` out of the coroutine before `await asyncio.sleep`
runs, so the loop never continues past a blocked attempt; any other
exception (also a pipeline failure) — the generic handler calls
`_LOGGER.error`, again raising `NameError` out of the coroutine; falling
off the loop (unreachable, since a blocked attempt already escapes) —
line 160 calls `_LOGGER.error`, raising `NameError` before any
abandonment is logged. -/
def fetchLoop (fetch : Nat → FetchOutcome) (norm : Bytes → Option (Bytes × Bytes)) :
    List Nat → CoverStore → FetchRun
  | [], s => FetchRun.nameErrorEscape [] s
  | i :: _rest, s =>
    match fetch i with
    | .artwork raw =>
      match norm raw with
      | some (j, p) =>
        FetchRun.normal
          [FetchEvent.attempt i, FetchEvent.updatedCover, FetchEvent.esphomeTriggered]
          { s with currentJpeg := some j, currentPng := some p }
      | none => FetchRun.nameErrorEscape [FetchEvent.attempt i] s
    | .noArtwork => FetchRun.normal [FetchEvent.attempt i, FetchEvent.noArtworkLogged] s
    | .raised => FetchRun.nameErrorEscape [FetchEvent.attempt i] s
    | .blocked => FetchRun.nameErrorEscape [FetchEvent.attempt i] s

/-- `_fetch_and_process_artwork`: the loop runs over `range(5)`. -/
def fetchAndProcessArtwork (fetch : Nat → FetchOutcome)
    (norm : Bytes → Option (Bytes × Bytes)) (s : CoverStore) : FetchRun :=
  fetchLoop fetch norm (List.range 5) s

/-- Is an event a fetch attempt? -/
def isAttempt : FetchEvent → Bool
  | .attempt _ => true
  | _ => false

/-- Number of artwork-fetch attempts in a trace. -/
def attemptCount (t : List FetchEvent) : Nat := (t.filter isAttempt).length

/-- The backoff-sleep durations (centiseconds) in a trace, in order. -/
def sleepsOf : List FetchEvent → List Nat
  | [] => []
  | FetchEvent.sleepCs d :: r => d :: sleepsOf r
  | _ :: r => sleepsOf r

/-- Claim C2, evaluation at the failing input: with the source reporting
`BlockedStateError` on every attempt (the first suffices), the
`except exceptions.BlockedStateError` clause calls `_LOGGER.warning`, and
since `_LOGGER` is undefined a `NameError` escapes the coroutine before
the backoff sleep: exactly one fetch attempt occurs, no inter-attempt
delay ever happens, the abandonment log of line 160 is never reached
(and would itself raise), and the current JPEG/PNG buffers are left
unchanged — against the claimed 5 attempts with delays 0.05/0.1/0.2/0.4 s
followed by a logged abandonment. -/
theorem fetch_retry_blocked_name_error (norm : Bytes → Option (Bytes × Bytes))
    (s : CoverStore) :
    fetchAndProcessArtwork (fun _ => FetchOutcome.blocked) norm s =
      FetchRun.nameErrorEscape [FetchEvent.attempt 0] s ∧
    attemptCount
      (FetchRun.events (fetchAndProcessArtwork (fun _ => FetchOutcome.blocked) norm s)) = 1 ∧
    sleepsOf
      (FetchRun.events (fetchAndProcessArtwork (fun _ => FetchOutcome.blocked) norm s)) = [] ∧
    FetchRun.store (fetchAndProcessArtwork (fun _ => FetchOutcome.blocked) norm s) = s := by
  exact ⟨rfl, rfl, rfl, rfl⟩

/-- Decoder state of a strict UTF-8 validator: `start` between characters,
otherwise the number of bytes still expected, with the admissible range of
the next byte (RFC 3629 restricts the first continuation byte to exclude
overlong encodings, surrogates and code points beyond U+10FFFF). -/
inductive Utf8State where
  | start
  | one (lo hi : Nat)
  | two (lo hi : Nat)
  | three (lo hi : Nat)
deriving Repr, DecidableEq

/-- One byte of strict UTF-8 validation; `none` is a decode error. -/
def utf8Step : Utf8State → Nat → Option Utf8State
  | .start, b =>
    if b ≤ 127 then some .start
    else if 194 ≤ b && b ≤ 223 then some (.one 128 191)
    else if b == 224 then some (.two 160 191)
    else if b == 237 then some (.two 128 159)
    else if 225 ≤ b && b ≤ 239 then some (.two 128 191)
    else if b == 240 then some (.three 144 191)
    else if 241 ≤ b && b ≤ 243 then some (.three 128 191)
    else if b == 244 then some (.three 128 143)
    else none
  | .one lo hi, b => if lo ≤ b && b ≤ hi then some .start else none
  | .two lo hi, b => if lo ≤ b && b ≤ hi then some (.one 128 191) else none
  | .three lo hi, b => if lo ≤ b && b ≤ hi then some (.two 128 191) else none

/-- Run the validator over a byte string; a trailing incomplete character
is a decode error. -/
def utf8Run : Utf8State → List Nat → Bool
  | st, [] => st == Utf8State.start
  | st, b :: r =>
    match utf8Step st b with
    | some st2 => utf8Run st2 r
    | none => false

/-- Strict UTF-8 validity of a byte string, as checked by Python's
`bytes.decode('utf-8')`; on invalid input the decode raises
`UnicodeDecodeError`. -/
def utf8Valid (l : List Nat) : Bool := utf8Run Utf8State.start l

/-- An incoming MQTT message: its topic and raw payload bytes. -/
structure MqttMsg where
  topic : String
  payload : Bytes
deriving Repr, DecidableEq

/-- The `mqtt` block of the configuration as used by `on_message_mqtt`.
Payload literals are carried in their UTF-8 byte form so they can be
compared with a decoded payload (UTF-8 encoding is injective). `none`
models an absent key (`dict.get` returning `None`). -/
structure MqttConfig where
  topic_cover : String
  topic_availability : Option String
  payload_available : Option Bytes
  payload_not_available : Option Bytes
deriving Repr, DecidableEq

/-- The guard of line 249: `mqtt_config.get("topic_availability") and
msg.topic == mqtt_config["topic_availability"]` (an absent or empty topic
string is falsy). -/
def availTopicMatch (cfg : MqttConfig) (topic : String) : Bool :=
  match cfg.topic_availability with
  | some t => !(t == "") && topic == t
  | none => false

/-- Result of one call of `on_message_mqtt`: either the handler returns
normally with the new store, or an exception escapes it. -/
inductive MqttResult where
  | uncaughtError
  | ok (s : CoverStore)
deriving Repr, DecidableEq

/-- `on_message_mqtt` (lines 240-269). Note the source runs
`payload = msg.payload.decode('utf-8')` at line 244, BEFORE entering the
`try` block, so a payload that is not valid UTF-8 raises
`UnicodeDecodeError` out of the handler. Inside the `try`: an
availability-topic message equal to `payload_not_available` runs the
revert-to-default branch; a cover-topic message runs the image pipeline
(`norm`; `none` models an exception in it, caught by the `except`) and
assigns both current buffers. -/
def on_message_mqtt (norm : Bytes → Option (Bytes × Bytes)) (cfg : MqttConfig)
    (s : CoverStore) (msg : MqttMsg) : MqttResult :=
  if utf8Valid msg.payload = false then MqttResult.uncaughtError
  else if availTopicMatch cfg msg.topic then
    if some msg.payload = cfg.payload_not_available then
      if s.currentJpeg ≠ s.defaultJpeg then
        MqttResult.ok { s with currentJpeg := s.defaultJpeg, currentPng := s.defaultPng }
      else MqttResult.ok s
    else MqttResult.ok s
  else if msg.topic = cfg.topic_cover then
    match norm msg.payload with
    | some (j, p) => MqttResult.ok { s with currentJpeg := some j, currentPng := some p }
    | none => MqttResult.ok s
  else MqttResult.ok s

/-- An MQTT configuration with only a cover topic. -/
def mqttCexConfig : MqttConfig :=
  { topic_cover := "cover", topic_availability := none,
    payload_available := none, payload_not_available := none }

/-- A cover-topic message whose payload is the JPEG magic `FF D8` —
exactly what the artwork topic carries, and not valid UTF-8. -/
def mqttCexMsg : MqttMsg := { topic := "cover", payload := [255, 216] }

/-- Claim C5, evaluation at the failing input: a cover-topic message whose
payload is the JPEG magic bytes `FF D8` makes `on_message_mqtt` raise
`UnicodeDecodeError` out of the handler (the decode at line 244 runs
before the `try` block), so the error is NOT caught inside the handler.
By contrast an error raised inside the `try` (here: the image pipeline
failing on a valid-UTF-8 payload) is caught and the handler returns
normally with the store unchanged. -/
theorem on_message_decode_error_escapes :
    on_message_mqtt (fun _ => none) mqttCexConfig initStore mqttCexMsg =
      MqttResult.uncaughtError ∧
    on_message_mqtt (fun _ => none) mqttCexConfig initStore
      { topic := "cover", payload := [120, 120] } = MqttResult.ok initStore := by
  constructor <;> decide

/-- The four served path strings of the configuration
(`served_jpeg_filename`, `served_png_filename`,
`served_default_jpeg_filename`, `served_default_png_filename`). -/
structure HttpConfig where
  served_jpeg_filename : String
  served_png_filename : String
  served_default_jpeg_filename : String
  served_default_png_filename : String
deriving Repr, DecidableEq

/-- An HTTP response as assembled by `CoverImageHandler`: the status, the
headers the handler sets, and the payload bytes the handler itself writes
to the socket (`self.wfile.write`). A 200 from `serve_image` is entirely
handler-written; for a `send_error` response the record below holds only
the handler-level hand-off, and the stdlib's completion of the response
on the wire (HTML error body and its headers) is added by
`wireResponse`. -/
structure HttpResponse where
  status : Nat
  contentType : Option String
  contentLength : Option Nat
  body : Bytes
deriving Repr, DecidableEq

/-- `self.send_error(code)` as performed by the handler's own code: hand
the status to the stdlib, writing nothing itself. What the stdlib then
puts on the wire for a GET — the HTML error page and its headers — is
modelled by `wireResponse`. -/
def send_error (code : Nat) : HttpResponse :=
  { status := code, contentType := none, contentLength := none, body := [] }

/-- `CoverImageHandler.serve_image` (lines 307-315): `if not data:` — the
buffer is `None` or empty — answers 404 and returns; otherwise 200 with
the content type, `Content-length` set to `len(data)`, and the bytes. -/
def serve_image (data : Option Bytes) (contentType : String) : HttpResponse :=
  match data with
  | none => send_error 404
  | some b =>
    if b.isEmpty then send_error 404
    else { status := 200, contentType := some contentType,
           contentLength := some b.length, body := b }

/-- `CoverImageHandler.do_GET` (lines 295-305): the if/elif chain over the
four configured paths; any other path answers `send_error(404)`. -/
def do_GET (cfg : HttpConfig) (s : CoverStore) (path : String) : HttpResponse :=
  if path = cfg.served_jpeg_filename then serve_image s.currentJpeg "image/jpeg"
  else if path = cfg.served_png_filename then serve_image s.currentPng "image/png"
  else if path = cfg.served_default_jpeg_filename then serve_image s.defaultJpeg "image/jpeg"
  else if path = cfg.served_default_png_filename then serve_image s.defaultPng "image/png"
  else send_error 404

/-- The buffer backing a request path: the slot selected by the first
matching branch of `do_GET`; the outer `none` when the path matches none
of the four configured paths. -/
def backingBuffer (cfg : HttpConfig) (s : CoverStore) (path : String) :
    Option (Option Bytes) :=
  if path = cfg.served_jpeg_filename then some s.currentJpeg
  else if path = cfg.served_png_filename then some s.currentPng
  else if path = cfg.served_default_jpeg_filename then some s.defaultJpeg
  else if path = cfg.served_default_png_filename then some s.defaultPng
  else none

/-- Each miss branch of `do_GET` — a path matching none of the four
configured paths, or a first-matching path whose buffer is absent —
hands the response to `send_error(404)`. -/
theorem do_GET_miss_is_send_error (cfg : HttpConfig) (s : CoverStore) (path : String)
    (h : backingBuffer cfg s path = none ∨ backingBuffer cfg s path = some none) :
    do_GET cfg s path = send_error 404 := by
  unfold backingBuffer at h
  unfold do_GET
  split_ifs at h ⊢ <;> simp_all [serve_image, send_error]

/-- ASCII bytes of a string (`str.encode`; every character of the error
page below is ASCII, so this is its UTF-8 encoding). -/
def strToAsciiBytes (t : String) : Bytes := t.data.map (fun c => c.toNat)

/-- The body `BaseHTTPRequestHandler.send_error(404)` writes for a GET:
the stdlib's `DEFAULT_ERROR_MESSAGE` HTML template (http/server.py)
filled with code 404, message "Not Found" and the explanation line
"Error code explanation: 404 - Nothing matches the given URI.". The
stdlib omits the body only for HEAD requests and for statuses
204/205/304, none of which applies here. -/
def errorPage404Text : String :=
  "<!DOCTYPE HTML>\n<html lang=\"en\">\n    <head>\n        <meta charset=\"utf-8\">\n        <title>Error response</title>\n    </head>\n    <body>\n        <h1>Error response</h1>\n        <p>Error code: 404</p>\n        <p>Message: Not Found.</p>\n        <p>Error code explanation: 404 - Nothing matches the given URI.</p>\n    </body>\n</html>\n"

/-- The stdlib 404 error page as bytes. -/
def errorPage404 : Bytes := strToAsciiBytes errorPage404Text

/-- The response on the wire. The handler produces only two statuses:
200 from `serve_image`, whose payload the handler writes in full (the
stdlib adds nothing to the body), and 404 from `send_error`, for which
the stdlib sets `Content-Type: text/html;charset=utf-8` and
`Content-Length` and writes the HTML error page as the body. -/
def wireResponse (r : HttpResponse) : HttpResponse :=
  if r.status = 404 then
    { status := 404, contentType := some "text/html;charset=utf-8",
      contentLength := some errorPage404.length, body := errorPage404 }
  else r

/-- A GET request end to end: the handler's routing followed by the
stdlib's completion of the response on the wire. -/
def do_GET_wire (cfg : HttpConfig) (s : CoverStore) (path : String) : HttpResponse :=
  wireResponse (do_GET cfg s path)

/-- An HTTP configuration with four distinct served paths. -/
def httpCfgEx : HttpConfig :=
  { served_jpeg_filename := "/cover.jpg", served_png_filename := "/cover.png",
    served_default_jpeg_filename := "/default.jpg",
    served_default_png_filename := "/default.png" }

/-- Claim C4, counterexample: the claim as stated is false. A GET of an
unconfigured path does answer status 404, but the response body on the
wire is the stdlib's HTML error page, not empty. -/
theorem do_GET_404_body_not_empty :
    (do_GET_wire httpCfgEx initStore "/other").status = 404 ∧
    (do_GET_wire httpCfgEx initStore "/other").body ≠ [] := by
  constructor
  · rfl
  · decide

/-- Claim C4, amended: for every GET of a path that is none of the four
configured paths, and for every GET of a configured path whose backing
buffer is absent, the response has status 404 and the handler's own code
writes no payload bytes; the body on the wire is however not empty — it
is the stdlib's HTML error page for 404, with matching `Content-Type`
and `Content-Length`. -/
theorem do_GET_wire_unknown_or_absent_404 (cfg : HttpConfig) (s : CoverStore)
    (path : String)
    (h : backingBuffer cfg s path = none ∨ backingBuffer cfg s path = some none) :
    (do_GET_wire cfg s path).status = 404 ∧
    (do_GET_wire cfg s path).body = errorPage404 ∧
    (do_GET_wire cfg s path).body ≠ [] ∧
    (do_GET_wire cfg s path).contentType = some "text/html;charset=utf-8" ∧
    (do_GET_wire cfg s path).contentLength = some (do_GET_wire cfg s path).body.length ∧
    (do_GET cfg s path).body = [] := by
  have hm := do_GET_miss_is_send_error cfg s path h
  unfold do_GET_wire
  rw [hm]
  refine ⟨rfl, rfl, ?_, rfl, rfl, rfl⟩
  show errorPage404 ≠ []
  decide

/-- Claim C4, witness for the amended theorem: an unconfigured path
against the empty store. -/
theorem do_GET_wire_unknown_or_absent_404_witness :
    ((do_GET_wire httpCfgEx initStore "/missing").status = 404 ∧
     (do_GET_wire httpCfgEx initStore "/missing").body = errorPage404 ∧
     (do_GET_wire httpCfgEx initStore "/missing").body ≠ [] ∧
     (do_GET_wire httpCfgEx initStore "/missing").contentType =
       some "text/html;charset=utf-8" ∧
     (do_GET_wire httpCfgEx initStore "/missing").contentLength =
       some (do_GET_wire httpCfgEx initStore "/missing").body.length ∧
     (do_GET httpCfgEx initStore "/missing").body = []) :=
  do_GET_wire_unknown_or_absent_404 httpCfgEx initStore "/missing" (Or.inl (by decide))

/-- Claim C8: `serve_image` treats an installed empty buffer exactly like
an absent one — `None` or zero-length data answers 404 with no payload —
and a 200 response always carries a non-empty body, with `Content-length`
equal to the length of the bytes written, those bytes being the buffer. -/
theorem serve_image_empty_as_absent (data : Option Bytes) (ct : String) :
    ((data = none ∨ data = some []) →
      (serve_image data ct).status = 404 ∧ (serve_image data ct).body = []) ∧
    ((serve_image data ct).status = 200 →
      (serve_image data ct).body ≠ [] ∧
      (serve_image data ct).contentLength = some (serve_image data ct).body.length ∧
      data = some (serve_image data ct).body) := by
  match data with
  | none => simp [serve_image, send_error]
  | some b => by_cases hb : b = [] <;> simp [serve_image, send_error, hb]

/-- Claim C8, witness: the theorem applied at an installed empty buffer. -/
theorem serve_image_empty_as_absent_witness :
    (serve_image (some []) "image/jpeg").status = 404 ∧
    (serve_image (some []) "image/jpeg").body = [] :=
  (serve_image_empty_as_absent (some []) "image/jpeg").1 (Or.inr rfl)

/-- The configuration as far as `main`'s source-selection check reads it:
`use_homepod = "homepod" in config`, `use_mqtt = "mqtt" in config`. -/
structure AppConfig where
  homepodPresent : Bool
  mqttPresent : Bool
deriving Repr, DecidableEq

/-- The observable startup actions of `main` (lines 339-382), in program
order, up to the HTTP server entering `serve_forever`; `exitProcess c` is
Python's `exit(c)`, which raises `SystemExit` and ends the process with
code `c`. -/
inductive StartEvent where
  | loadConfig
  | setupLogging
  | loadDefaults
  | exitProcess (code : Nat)
  | startAsyncioThread
  | startProducer
  | startHttpServer
deriving Repr, DecidableEq

/-- The startup sequence of `main`: config, logging and defaults first;
then `exit(1)` if both producer blocks are present, `exit(1)` if neither
is; otherwise the asyncio thread, the selected producer and the HTTP
server are started. -/
def mainStartupTrace (c : AppConfig) : List StartEvent :=
  [StartEvent.loadConfig, StartEvent.setupLogging, StartEvent.loadDefaults] ++
  (if c.homepodPresent && c.mqttPresent then [StartEvent.exitProcess 1]
   else if !c.homepodPresent && !c.mqttPresent then [StartEvent.exitProcess 1]
   else [StartEvent.startAsyncioThread, StartEvent.startProducer,
         StartEvent.startHttpServer])

/-- Claim C6: with both producer blocks present, or with neither, `main`
exits with code 1 (non-zero) before starting any producer or HTTP server;
with exactly one block present the check passes (no exit). -/
theorem main_producer_config_check (c : AppConfig) :
    ((c.homepodPresent = c.mqttPresent) →
      mainStartupTrace c = [StartEvent.loadConfig, StartEvent.setupLogging,
        StartEvent.loadDefaults, StartEvent.exitProcess 1] ∧
      (1 : Nat) ≠ 0 ∧
      StartEvent.startProducer ∉ mainStartupTrace c ∧
      StartEvent.startHttpServer ∉ mainStartupTrace c) ∧
    ((c.homepodPresent ≠ c.mqttPresent) →
      ∀ k, StartEvent.exitProcess k ∉ mainStartupTrace c) := by
  cases h1 : c.homepodPresent <;> cases h2 : c.mqttPresent <;>
    simp [mainStartupTrace, h1, h2]

/-- Claim C6, witness: both blocks present. -/
theorem main_producer_config_check_witness :
    (mainStartupTrace { homepodPresent := true, mqttPresent := true } =
      [StartEvent.loadConfig, StartEvent.setupLogging, StartEvent.loadDefaults,
       StartEvent.exitProcess 1] ∧
     (1 : Nat) ≠ 0 ∧
     StartEvent.startProducer ∉
       mainStartupTrace { homepodPresent := true, mqttPresent := true } ∧
     StartEvent.startHttpServer ∉
       mainStartupTrace { homepodPresent := true, mqttPresent := true }) :=
  (main_producer_config_check { homepodPresent := true, mqttPresent := true }).1 rfl

/-- The `esphome` block as read by `trigger_esphome_action` via `dict.get`
(`none` = absent key; Python also treats an empty string as falsy). -/
structure EsphomeConfig where
  device_ip : Option String
  action_name : Option String
deriving Repr, DecidableEq

/-- Outcomes of the external aioesphomeapi calls, fixed before the run. -/
structure DeviceEnv where
  connectOk : Bool
  listOk : Bool
  services : List String
  executeOk : Bool
deriving Repr, DecidableEq

/-- External calls performed and log lines emitted by
`trigger_esphome_action`. -/
inductive TriggerEvent where
  | connectCall
  | listServicesCall
  | executeServiceCall (name : String)
  | disconnectCall
  | logSuccess
  | logActionMissing
  | logError
deriving Repr, DecidableEq

/-- Python falsiness of an optional string (`not x`). -/
def falsyStr : Option String → Bool
  | none => true
  | some s => s == ""

/-- `trigger_esphome_action` (lines 96-120). It returns immediately when
`device_ip` or `action_name` is falsy; otherwise it connects, lists the
device's services, looks the action up by name and executes it, inside a
`try` whose `except` only logs, with `finally: await cli.disconnect()`.
It never reads or writes the cover globals, and (with the collaborator's
`disconnect` not raising) no path re-raises, so the function always
returns normally: the codomain has no error outcome. -/
def trigger_esphome_action (cfg : EsphomeConfig) (env : DeviceEnv) (s : CoverStore) :
    List TriggerEvent × CoverStore :=
  if falsyStr cfg.device_ip || falsyStr cfg.action_name then ([], s)
  else
    let name := cfg.action_name.getD ""
    if !env.connectOk then
      ([TriggerEvent.connectCall, TriggerEvent.logError, TriggerEvent.disconnectCall], s)
    else if !env.listOk then
      ([TriggerEvent.connectCall, TriggerEvent.listServicesCall, TriggerEvent.logError,
        TriggerEvent.disconnectCall], s)
    else
      match env.services.find? (fun n => n == name) with
      | some n =>
        if env.executeOk then
          ([TriggerEvent.connectCall, TriggerEvent.listServicesCall,
            TriggerEvent.executeServiceCall n, TriggerEvent.logSuccess,
            TriggerEvent.disconnectCall], s)
        else
          ([TriggerEvent.connectCall, TriggerEvent.listServicesCall,
            TriggerEvent.executeServiceCall n, TriggerEvent.logError,
            TriggerEvent.disconnectCall], s)
      | none =>
        ([TriggerEvent.connectCall, TriggerEvent.listServicesCall,
          TriggerEvent.logActionMissing, TriggerEvent.disconnectCall], s)

/-- Claim C7: for every configuration and every outcome of the external
calls, `trigger_esphome_action` leaves all four cover buffers unchanged
and completes normally (every configured path runs to the `finally`
disconnect; the failing outcomes only add a log event), and it performs
no external call at all when the device address or the action name is
unconfigured. -/
theorem trigger_esphome_isolated (cfg : EsphomeConfig) (env : DeviceEnv) (s : CoverStore) :
    (trigger_esphome_action cfg env s).2 = s ∧
    ((falsyStr cfg.device_ip || falsyStr cfg.action_name) = true →
      (trigger_esphome_action cfg env s).1 = []) ∧
    ((falsyStr cfg.device_ip || falsyStr cfg.action_name) = false →
      (trigger_esphome_action cfg env s).1.getLast? = some TriggerEvent.disconnectCall) := by
  unfold trigger_esphome_action
  cases hf : falsyStr cfg.device_ip || falsyStr cfg.action_name <;>
    cases hc : env.connectOk <;> cases hl : env.listOk <;>
    rcases hs : env.services.find? (fun n => n == cfg.action_name.getD "") with _ | n <;>
    cases he : env.executeOk <;> (try simp only [hs]) <;> simp_all

/-- Claim C7, witness: a configured device whose connect call fails. -/
theorem trigger_esphome_isolated_witness :
    ((trigger_esphome_action { device_ip := some "10.0.0.2", action_name := some "show" }
        { connectOk := false, listOk := false, services := [], executeOk := false }
        initStore).2 = initStore ∧
     ((falsyStr (some "10.0.0.2") || falsyStr (some "show")) = true →
      (trigger_esphome_action { device_ip := some "10.0.0.2", action_name := some "show" }
        { connectOk := false, listOk := false, services := [], executeOk := false }
        initStore).1 = []) ∧
     ((falsyStr (some "10.0.0.2") || falsyStr (some "show")) = false →
      (trigger_esphome_action { device_ip := some "10.0.0.2", action_name := some "show" }
        { connectOk := false, listOk := false, services := [], executeOk := false }
        initStore).1.getLast? = some TriggerEvent.disconnectCall)) :=
  trigger_esphome_isolated { device_ip := some "10.0.0.2", action_name := some "show" }
    { connectOk := false, listOk := false, services := [], executeOk := false } initStore

/-- The pyatv `Playing` event as read by `playstatus_update`: the track
title (possibly `None`) and the device-state name
(`playstatus.device_state.name`). -/
structure Playstatus where
  title : Option String
  device_state : String
deriving Repr, DecidableEq

/-- `title = playstatus.title or "No Title"`: Python `or` takes the second
operand when the first is falsy (`None` or the empty string). -/
def effTitle : Option String → String
  | none => "No Title"
  | some s => if s = "" then "No Title" else s

/-- What `playstatus_update` does besides updating its de-dupe state. -/
inductive PlayAction where
  | ignored
  | fetchScheduled
  | reverted
  | keptDefault
deriving Repr, DecidableEq

/-- `HomePodListener.playstatus_update` (lines 162-177): the early return
fires when the effective title equals the remembered
`last_printed_title` AND the state is "Playing" (a string never equals
Python `None`); otherwise `last_printed_title` becomes the title if
playing, `None` if not; a playing event schedules the artwork fetch, a
non-playing event runs the revert-to-default branch. Returns the new
de-dupe state, the action taken and the new store. -/
def playstatus_update (lastPrinted : Option String) (p : Playstatus) (s : CoverStore) :
    Option String × PlayAction × CoverStore :=
  let title := effTitle p.title
  let state := p.device_state
  if some title = lastPrinted ∧ state = "Playing" then (lastPrinted, PlayAction.ignored, s)
  else
    let last2 := if state = "Playing" then some title else none
    if state = "Playing" then (last2, PlayAction.fetchScheduled, s)
    else if s.currentJpeg ≠ s.defaultJpeg then
      (last2, PlayAction.reverted,
       { s with currentJpeg := s.defaultJpeg, currentPng := s.defaultPng })
    else (last2, PlayAction.keptDefault, s)

/-- Claim C9: after handling any event whose state is not "Playing" the
remembered last title is `None`, so the next "Playing" event is never
suppressed as a duplicate (whatever its title and the store); and an
event is ignored only when it is a "Playing" event whose effective title
equals the remembered one — which is only set by a "Playing" event. -/
theorem playstatus_dedup_invariant (lastPrinted : Option String) (p : Playstatus)
    (s : CoverStore) :
    (p.device_state ≠ "Playing" →
      (playstatus_update lastPrinted p s).1 = none ∧
      ∀ q s2, q.device_state = "Playing" →
        (playstatus_update (playstatus_update lastPrinted p s).1 q s2).2.1 ≠
          PlayAction.ignored) ∧
    ((playstatus_update lastPrinted p s).2.1 = PlayAction.ignored →
      p.device_state = "Playing" ∧ lastPrinted = some (effTitle p.title)) := by
  unfold playstatus_update
  by_cases hdup : some (effTitle p.title) = lastPrinted ∧ p.device_state = "Playing"
  · simp only [if_pos hdup]
    exact ⟨fun hnp => absurd hdup.2 hnp, fun _ => ⟨hdup.2, hdup.1.symm⟩⟩
  · simp only [if_neg hdup]
    by_cases hp : p.device_state = "Playing"
    · simp [hp]
    · simp only [if_neg hp]
      refine ⟨fun _ => ⟨by split <;> simp, ?_⟩, ?_⟩
      · intro q s2 hq
        split <;> simp [playstatus_update, hq]
      · split <;> simp

/-- Claim C9, witness: a paused event clears the de-dupe state; the
following playing event with the same title is handled. -/
theorem playstatus_dedup_invariant_witness :
    (({ title := some "Song A", device_state := "Paused" } : Playstatus).device_state ≠
        "Playing" ∧
      (playstatus_update (some "Song A")
        { title := some "Song A", device_state := "Paused" } initStore).1 = none ∧
      ∀ q s2, q.device_state = "Playing" →
        (playstatus_update
          (playstatus_update (some "Song A")
            { title := some "Song A", device_state := "Paused" } initStore).1 q s2).2.1 ≠
          PlayAction.ignored) :=
  ⟨by decide,
   ((playstatus_dedup_invariant (some "Song A")
      { title := some "Song A", device_state := "Paused" } initStore).1 (by decide)).1,
   ((playstatus_dedup_invariant (some "Song A")
      { title := some "Song A", device_state := "Paused" } initStore).1 (by decide)).2⟩

/-- `load_default_cover` (lines 75-92). The whole body is one `try`: the
JPEG block (open the configured default JPEG, process, encode, assign
`default_cover_jpeg_bytes` then `current_cover_jpeg`) runs before the PNG
block (same for PNG). `jpegStep` and `pngStep` are the outcomes of the two
blocks — `.error` models `FileNotFoundError` or any other exception,
which the handlers catch and only log. An exception in the JPEG block
skips the PNG block entirely. -/
def load_default_cover (jpegStep : Except String Bytes) (pngStep : Except String Bytes)
    (s : CoverStore) : CoverStore :=
  match jpegStep with
  | .error _ => s
  | .ok jb =>
    let s1 := { s with defaultJpeg := some jb, currentJpeg := some jb }
    match pngStep with
    | .error _ => s1
    | .ok pb => { s1 with defaultPng := some pb, currentPng := some pb }

/-- Claim C10: default-cover loading is sequentially coupled. From the
startup store (all slots `None`): a failure in the JPEG block leaves every
slot absent — the PNG slots too, even when the PNG step would succeed;
a failure only in the PNG block leaves the JPEG default and current
installed and both PNG slots absent. -/
theorem load_default_cover_sequential (jb pb : Bytes) (e1 e2 : String) :
    load_default_cover (Except.error e1) (Except.ok pb) initStore = initStore ∧
    (load_default_cover (Except.error e1) (Except.ok pb) initStore).defaultPng = none ∧
    (load_default_cover (Except.error e1) (Except.ok pb) initStore).currentPng = none ∧
    load_default_cover (Except.ok jb) (Except.error e2) initStore =
      { currentJpeg := some jb, currentPng := none,
        defaultJpeg := some jb, defaultPng := none } := by
  exact ⟨rfl, rfl, rfl, rfl⟩
